import Mathlib

/-!
Shallow embedding of the storage envelope pipeline of `react-unified-storage`
(`packages/core/src`): the envelope data model (`types.ts`), the in-memory
driver (`memory.ts`), the web-storage driver (`webstorage.ts`), the driver
factory (`drivers.ts`), and the core pipeline (`core.ts`): `setup`,
`processWrite`, `processRead`, `read`, `write`, `remove`, `keys`, `clearAll`.

JavaScript strings are modelled as `List Char` (sequences of code units), so
that `slice`, `startsWith` and concatenation become `List.drop`,
`List.isPrefixOf` and `++`.  The external platform primitives the pipeline
calls — `JSON.stringify`/`JSON.parse`, WebCrypto `encrypt`/`decrypt`/key
derivation, fflate `compress`/`decompress`, and `btoa`/`atob` — are fields of
a `Platform` structure: the pipeline composes them exactly as `core.ts` does,
and theorems that need their round-trip contracts take those contracts as
hypotheses (discharged on a concrete executable model platform in witnesses).
A JavaScript function that can throw is modelled with `Option`/`Except`.
-/

namespace UnifiedStorage

/-- JavaScript strings, modelled as lists of code units. -/
abbrev Str := List Char

/-- Embed a Lean string literal as a modelled JavaScript string. -/
def str (s : String) : Str := s.data

/-! ## `types.ts` -/

/-- `StorageDriver` union from `types.ts`:
`'memory' | 'local' | 'session' | 'idb' | 'auto'`. -/
inductive StorageDriver where
  | memory
  | local
  | session
  | idb
  | auto
deriving DecidableEq, Repr

/-- The `encryption` field of `StorageConfig`: `{ key: string; salt?: string }`. -/
structure EncryptionConfig where
  key : Str
  salt : Option Str
deriving DecidableEq, Repr

/-- `StorageConfig` from `types.ts`.  The TypeScript `namespace` field is
spelled `nameSpace` (`namespace` is a Lean keyword); the optional boolean
`compression` is modelled as a `Bool` (absent ≡ `false` under JS truthiness);
`errorHandler` is modelled by threading caught errors through results. -/
structure StorageConfig where
  nameSpace : Option Str
  driver : Option StorageDriver
  broadcast : Option Bool
  encryption : Option EncryptionConfig
  compression : Bool
deriving DecidableEq, Repr

/-- `Envelope<T>` from `types.ts`: version, payload, timestamps, optional
expiry.  `T` is the payload type (the pipeline always stores the processed
string there, cf. `processedData as T` in `core.ts`). -/
structure Envelope (T : Type) where
  v : Nat
  data : T
  createdAt : Nat
  updatedAt : Nat
  expiresAt : Option Nat
deriving DecidableEq, Repr

/-! ## Platform primitives

The pipeline calls `JSON.stringify`/`JSON.parse`, WebCrypto
`encrypt`/`decrypt` and `makeAesKey`, fflate `gzip`/`gunzip` and
`btoa`/`atob`.  These external collaborators are abstracted into a record:
`V` logical values, `T` text (strings), `B` byte arrays, `K` crypto keys.
Primitives that throw on bad input return `Option`. -/
structure Platform (V T B K : Type) where
  stringify : V → T
  parse : T → Option V
  deriveKey : EncryptionConfig → K
  encrypt : K → T → T
  decrypt : K → T → Option T
  compress : T → B
  decompress : B → Option T
  btoa : B → T
  atob : T → Option B

/-! ## `memory.ts` — `MemoryDriver`

The backing `Map<string, Envelope>` is modelled as an association list in
insertion order (JS `Map` iteration order); `Map.set` keeps the position of
an existing key and appends a new one. -/

/-- The `MemoryDriver`'s backing `Map`, in insertion order. -/
abbrev MemStore (T : Type) := List (Str × Envelope T)

namespace MemoryDriver

/-- `MemoryDriver.read`: `this.store.get(key) || null`. -/
def read (store : MemStore T) (key : Str) : Option (Envelope T) :=
  match store with
  | [] => none
  | (k, e) :: rest => if k = key then some e else read rest key

/-- `MemoryDriver.write`: `this.store.set(key, envelope)` (overwrite keeps
the key's insertion position; a new key is appended). -/
def write (store : MemStore T) (key : Str) (env : Envelope T) : MemStore T :=
  match store with
  | [] => [(key, env)]
  | (k, e) :: rest =>
    if k = key then (k, env) :: rest else (k, e) :: write rest key env

/-- `MemoryDriver.remove`: `this.store.delete(key)`. -/
def del (store : MemStore T) (key : Str) : MemStore T :=
  match store with
  | [] => []
  | (k, e) :: rest => if k = key then rest else (k, e) :: del rest key

/-- `MemoryDriver.keys(prefix?)`: all keys, filtered by `startsWith` when a
(truthy) prefix is supplied. -/
def keysOf (store : MemStore T) (pref : Option Str) : List Str :=
  let ks := store.map (·.1)
  match pref with
  | some p => if p = [] then ks else ks.filter (fun k => p.isPrefixOf k)
  | none => ks

/-- `MemoryDriver.clearAll`: `this.store.clear()`. -/
def clearAll (_store : MemStore T) : MemStore T := []

end MemoryDriver

/-! ## `drivers.ts` — the factory -/

/-- Identity of a concrete driver instance (`driverId()` values). -/
inductive DriverTag where
  | memory
  | local
  | session
  | idb
deriving DecidableEq, Repr

/-- `driverId()` string constant of each concrete driver. -/
def driverIdStr : DriverTag → Str
  | .memory => str "memory"
  | .local => str "local"
  | .session => str "session"
  | .idb => str "idb"

/-- A concrete driver instance: its identity plus its backing store
(fresh and empty at construction for the memory driver; the store contents
of the web-storage singletons are irrelevant to the factory-level claims). -/
structure DriverInst (T : Type) where
  tag : DriverTag
  store : MemStore T
deriving DecidableEq, Repr

/-- Execution environment facts consulted by `drivers.ts`:
`isSSR = (typeof window === 'undefined')`; `idbCtorOk` models whether
`new IndexedDBDriver(...)` throws during construction; `localAvailable`
models `localDriver !== null` (and likewise for `sessionDriver`). -/
structure JsEnv where
  isSSR : Bool
  idbCtorOk : Bool
  localAvailable : Bool
  sessionAvailable : Bool
deriving DecidableEq, Repr

/-- `createDriver` from `drivers.ts`.  `auto` in a non-SSR context follows
the source's `try { new IndexedDBDriver } catch { try { if (localDriver)
return localDriver } catch { return new MemoryDriver() } } return new
MemoryDriver()` fallback chain. -/
def createDriver (env : JsEnv) (d : StorageDriver) : Except Str (DriverInst T) :=
  match d with
  | .memory => .ok ⟨.memory, []⟩
  | .local =>
    if env.isSSR || !env.localAvailable then .error (str "localStorage not available")
    else .ok ⟨.local, []⟩
  | .session =>
    if env.isSSR || !env.sessionAvailable then .error (str "sessionStorage not available")
    else .ok ⟨.session, []⟩
  | .idb =>
    if env.isSSR then .error (str "IndexedDB not available in SSR")
    else if env.idbCtorOk then .ok ⟨.idb, []⟩
    else .error (str "IndexedDB construction failed")
  | .auto =>
    if env.isSSR then .ok ⟨.memory, []⟩
    else if env.idbCtorOk then .ok ⟨.idb, []⟩
    else if env.localAvailable then .ok ⟨.local, []⟩
    else .ok ⟨.memory, []⟩

/-! ## `core.ts` — module-level state and pipeline -/

/-- The module-level mutable state of `core.ts`: `globalConfig`, `driver`,
`broadcastManager` (tracked as a flag), `encryptionKey`, and
`currentDriverName`; plus the set of `makeAesKey` promises kicked off by
`setup` whose `.then` callback has not yet run (`pendingKeys`). -/
structure GlobalState (T K : Type) where
  globalConfig : Option StorageConfig
  driver : Option (DriverInst T)
  broadcastOn : Bool
  encryptionKey : Option K
  pendingKeys : List K
  currentDriverName : Str
deriving DecidableEq, Repr

/-- The state at module load: all handles null. -/
def initialState (T K : Type) : GlobalState T K :=
  { globalConfig := none
    driver := none
    broadcastOn := false
    encryptionKey := none
    pendingKeys := []
    currentDriverName := str "auto" }

/-- `setup(config)` from `core.ts`.  `globalConfig` is assigned before
`createDriver` runs, so on a driver error the config is already replaced;
`encryptionKey` is never reset; configuring encryption appends a fresh
key-derivation to the in-flight set.  Returns the new state together with
the thrown error, if any. -/
def setup (P : Platform V T B K) (env : JsEnv) (cfg : StorageConfig)
    (st : GlobalState T K) : GlobalState T K × Option Str :=
  let st1 := { st with globalConfig := some cfg }
  match createDriver env (cfg.driver.getD .auto) with
  | .error e => (st1, some e)
  | .ok d =>
    let st2 := { st1 with driver := some d, currentDriverName := driverIdStr d.tag }
    let st3 := if cfg.broadcast != some false then { st2 with broadcastOn := true } else st2
    let st4 :=
      match cfg.encryption with
      | some ec => { st3 with pendingKeys := st3.pendingKeys ++ [P.deriveKey ec] }
      | none => st3
    (st4, none)

/-- The `.then(key => { encryptionKey = key })` callback of one in-flight
`makeAesKey` promise resolving: sets `encryptionKey` unconditionally, even
when the derivation was started by a superseded `setup` call. -/
def resolveKey [DecidableEq K] (st : GlobalState T K) (k : K) : GlobalState T K :=
  if st.pendingKeys.contains k then
    { st with encryptionKey := some k, pendingKeys := st.pendingKeys.erase k }
  else st

/-- `getEnvelopeKey`: `globalConfig?.namespace ? namespace + ":" + key : key`
(an empty namespace string is falsy and applies no prefix). -/
def getEnvelopeKey (cfg? : Option StorageConfig) (key : Str) : Str :=
  match cfg? >>= (·.nameSpace) with
  | some ns => if ns ≠ [] then ns ++ str ":" ++ key else key
  | none => key

/-- `globalConfig?.compression` under JS truthiness. -/
def compressionOf (cfg? : Option StorageConfig) : Bool :=
  match cfg? with
  | some c => c.compression
  | none => false

/-- `globalConfig?.encryption`. -/
def encryptionOf (cfg? : Option StorageConfig) : Option EncryptionConfig :=
  match cfg? with
  | some c => c.encryption
  | none => none

/-- Errors thrown inside the pipeline's read path (all caught by `read`'s
`try`/`catch` and funnelled to the error handler). -/
inductive PErr where
  | atobFailed
  | decompressFailed
  | decryptFailed
  | parseFailed
  | schemaFailed
deriving DecidableEq, Repr

/-- `processWrite` from `core.ts`: serialize, encrypt when `encryptionKey`
is non-null (bumping the version to ≥ 3), compress when configured (bumping
the version to ≥ 2), then wrap with timestamps and optional expiry
(`ttlMs ? now + ttlMs : undefined`). -/
def processWrite (P : Platform V T B K) (cfg? : Option StorageConfig)
    (key? : Option K) (now : Nat) (data : V) (version? : Option Nat)
    (ttlMs? : Option Nat) : Envelope T :=
  let version := version?.getD 1
  let d0 := P.stringify data
  let step1 : T × Nat :=
    match key? with
    | some k => (P.encrypt k d0, max version 3)
    | none => (d0, version)
  let step2 : T × Nat :=
    if compressionOf cfg? then (P.btoa (P.compress step1.1), max step1.2 2)
    else step1
  { v := step2.2
    data := step2.1
    createdAt := now
    updatedAt := now
    expiresAt :=
      match ttlMs? with
      | some t => if t ≠ 0 then some (now + t) else none
      | none => none }

/-- `processRead` from `core.ts`: lazy TTL check (`expiresAt && now >
expiresAt`), then decompress when compression is configured and `v ≥ 2`,
then decrypt when an encryption key is present and `v ≥ 3` (returning null
when `v ≥ 3` but no key is ready), then `JSON.parse`.  Throws are modelled
by `Except.error`. -/
def processRead (P : Platform V T B K) (cfg? : Option StorageConfig)
    (key? : Option K) (now : Nat) (env : Envelope T) : Except PErr (Option V) :=
  if (match env.expiresAt with
      | some e => e ≠ 0 && decide (now > e)
      | none => false) then
    .ok none
  else
    let step1 : Except PErr T :=
      if compressionOf cfg? && decide (env.v ≥ 2) then
        match P.atob env.data with
        | some bytes =>
          match P.decompress bytes with
          | some s => .ok s
          | none => .error .decompressFailed
        | none => .error .atobFailed
      else .ok env.data
    match step1 with
    | .error e => .error e
    | .ok d1 =>
      if env.v ≥ 3 then
        match key? with
        | some k =>
          match P.decrypt k d1 with
          | some d2 =>
            match P.parse d2 with
            | some v => .ok (some v)
            | none => .error .parseFailed
          | none => .error .decryptFailed
        | none => .ok none
      else
        match P.parse d1 with
        | some v => .ok (some v)
        | none => .error .parseFailed

/-- A caller-supplied Zod schema: `schema.parse` either returns the parsed
value or throws (`none`). -/
abbrev Schema (V : Type) := Option V → Option (Option V)

/-- The shared "Storage not initialized. Call setup() first." message. -/
def notInitializedMsg : Str := str "Storage not initialized. Call setup() first."

/-- `read(key, schema?)` from `core.ts`: throws when not initialized;
otherwise fetches the namespaced envelope, and inside a `try`/`catch` runs
`processRead` and the optional schema — a caught error is passed to the
error handler and `null` is returned.  The result carries the returned
value and the error handed to `errorHandler` (if any); the state is
returned unchanged (the read path performs no mutation). -/
def readOp (P : Platform V T B K) (now : Nat) (key : Str)
    (schema? : Option (Schema V)) (st : GlobalState T K) :
    Except Str (Option V × Option PErr) × GlobalState T K :=
  match st.driver with
  | none => (.error notInitializedMsg, st)
  | some d =>
    let ekey := getEnvelopeKey st.globalConfig key
    match MemoryDriver.read d.store ekey with
    | none => (.ok (none, none), st)
    | some env =>
      match processRead P st.globalConfig st.encryptionKey now env with
      | .error e => (.ok (none, some e), st)
      | .ok dat =>
        match schema? with
        | some sch =>
          match sch dat with
          | some r => (.ok (r, none), st)
          | none => (.ok (none, some .schemaFailed), st)
        | none => (.ok (dat, none), st)

/-- `write(key, data, {v?, ttlMs?})` from `core.ts`: throws when not
initialized; otherwise builds the envelope via `processWrite` and persists
it under the namespaced key. -/
def writeOp (P : Platform V T B K) (now : Nat) (key : Str) (data : V)
    (version? ttlMs? : Option Nat) (st : GlobalState T K) :
    Except Str (GlobalState T K) :=
  match st.driver with
  | none => .error notInitializedMsg
  | some d =>
    let env := processWrite P st.globalConfig st.encryptionKey now data version? ttlMs?
    let ekey := getEnvelopeKey st.globalConfig key
    .ok { st with driver := some { d with store := MemoryDriver.write d.store ekey env } }

/-- `remove(key)` from `core.ts`. -/
def removeOp (key : Str) (st : GlobalState T K) : Except Str (GlobalState T K) :=
  match st.driver with
  | none => .error notInitializedMsg
  | some d =>
    let ekey := getEnvelopeKey st.globalConfig key
    .ok { st with driver := some { d with store := MemoryDriver.del d.store ekey } }

/-- `keys(prefix?)` from `core.ts`: asks the driver for keys under
`namespace + ":"` (when a truthy namespace is configured), strips the
prefix with `slice(namespace.length + 1)`, then applies the caller's
(truthy) prefix filter. -/
def keysOp (pref? : Option Str) (st : GlobalState T K) : Except Str (List Str) :=
  match st.driver with
  | none => .error notInitializedMsg
  | some d =>
    let ns? := st.globalConfig >>= (·.nameSpace)
    let nsArg : Option Str :=
      match ns? with
      | some ns => if ns ≠ [] then some (ns ++ str ":") else none
      | none => none
    let allKeys := MemoryDriver.keysOf d.store nsArg
    let stripped := allKeys.map (fun k =>
      match ns? with
      | some ns => if ns ≠ [] then k.drop (ns.length + 1) else k
      | none => k)
    .ok (match pref? with
      | some p => if p ≠ [] then stripped.filter (fun k => p.isPrefixOf k) else stripped
      | none => stripped)

/-- `clearAll()` from `core.ts`: `driver.clearAll()` — the whole backing
store, with no namespace scoping. -/
def clearAllOp (st : GlobalState T K) : Except Str (GlobalState T K) :=
  match st.driver with
  | none => .error notInitializedMsg
  | some d =>
    .ok { st with driver := some { d with store := MemoryDriver.clearAll d.store } }

/-- `driverId()` from `core.ts`: `driver?.driverId() || 'none'`. -/
def driverIdOp (st : GlobalState T K) : Str :=
  match st.driver with
  | some d => driverIdStr d.tag
  | none => str "none"

/-! ## `webstorage.ts` — `WebStorageDriver` -/

/-- A `Storage` backend (localStorage/sessionStorage): key → raw string. -/
abbrev WSStore := List (Str × Str)

/-- `getItem` lookup on the raw string store. -/
def wsGetItem (storage : WSStore) (key : Str) : Option Str :=
  match storage with
  | [] => none
  | (k, s) :: rest => if k = key then some s else wsGetItem rest key

/-- `WebStorageDriver.read`: `try { const item = getItem(key); return item ?
JSON.parse(item) : null } catch { return null }`.  `parseEnv` models
`JSON.parse` on the stored string (throwing ≡ `.error`); an empty stored
string is falsy and yields `null` without parsing.  Returns the result
together with the (unchanged) storage. -/
def wsRead (parseEnv : Str → Except Str (Envelope T)) (storage : WSStore)
    (key : Str) : Option (Envelope T) × WSStore :=
  match wsGetItem storage key with
  | none => (none, storage)
  | some s =>
    if s = [] then (none, storage)
    else
      match parseEnv s with
      | .ok env => (some env, storage)
      | .error _ => (none, storage)

/-! ## A concrete executable platform

Used to evaluate the pipeline on concrete inputs: values are `Nat`, text
and byte arrays are `List Nat`, keys are `Nat`.  Each primitive is
injective with a computable inverse, so the round-trip contracts of the
real platform primitives (`JSON.parse ∘ JSON.stringify`, `decrypt ∘
encrypt`, `gunzip ∘ gzip`, `atob ∘ btoa`) hold for it definitionally. -/
def modelP : Platform Nat (List Nat) (List Nat) Nat where
  stringify v := [v]
  parse := fun t =>
    match t with
    | [v] => some v
    | _ => none
  deriveKey ec := ec.key.length + 31 * (ec.salt.getD []).length
  encrypt k t := k :: t
  decrypt k := fun t =>
    match t with
    | [] => none
    | x :: r => if x = k then some r else none
  compress t := 0 :: t
  decompress := fun b =>
    match b with
    | 0 :: t => some t
    | _ => none
  btoa b := 1 :: b
  atob := fun t =>
    match t with
    | 1 :: b => some b
    | _ => none

/-- How `read` surfaces `processRead`'s verdict: an uncaught value on
success, or `null` plus the error funnelled to the error handler. -/
def readOutcome (r : Except PErr (Option V)) : Except Str (Option V × Option PErr) :=
  match r with
  | .error e => .ok (none, some e)
  | .ok dat => .ok (dat, none)

/-- A memory-driver state holding `42` at key `"k"`, written plain. -/
def stateWith42 : GlobalState (List Nat) Nat :=
  { globalConfig := some ⟨none, some .memory, some false, none, false⟩
    driver := some ⟨.memory,
      [(str "k", processWrite modelP (some ⟨none, some .memory, some false, none, false⟩)
          none 50 42 none none)]⟩
    broadcastOn := false
    encryptionKey := none
    pendingKeys := []
    currentDriverName := str "memory" }

/-- A state whose store holds a corrupt encrypted-tier envelope (`v = 3`,
payload `[9, 9]`) while key `7` is resolved: decrypting it fails. -/
def stateCorrupt : GlobalState (List Nat) Nat :=
  { globalConfig := some ⟨none, some .memory, some false, some ⟨str "pw", none⟩, false⟩
    driver := some ⟨.memory, [(str "k", ⟨3, [9, 9], 50, 50, none⟩)]⟩
    broadcastOn := false
    encryptionKey := some 7
    pendingKeys := []
    currentDriverName := str "memory" }

/-- The encryption settings of the first `setup` call in the re-setup
scenario. -/
def ecOne : EncryptionConfig := ⟨str "pw-one", some (str "salt-one")⟩

/-- First configuration of the re-setup scenario: encryption configured. -/
def cfgOne : StorageConfig := ⟨none, some .memory, some false, some ecOne, false⟩

/-- Second configuration of the re-setup scenario: no encryption. -/
def cfgTwo : StorageConfig := ⟨none, some .memory, some false, none, false⟩

/-- A server-side (no `window`) execution environment. -/
def ssrEnv : JsEnv := ⟨true, false, false, false⟩

/-- The state after: `setup(cfgOne)` (encryption configured), the key
derivation for `cfgOne` resolving, then `setup(cfgTwo)` (no encryption). -/
def stateAfterResetup : GlobalState (List Nat) Nat :=
  (setup modelP ssrEnv cfgTwo
    (resolveKey
      ((setup modelP ssrEnv cfgOne (initialState (List Nat) Nat)).1)
      (modelP.deriveKey ecOne))).1

theorem modelP_parse_stringify (v : Nat) : modelP.parse (modelP.stringify v) = some v := rfl

theorem modelP_decrypt_encrypt (k : Nat) (t : List Nat) :
    modelP.decrypt k (modelP.encrypt k t) = some t := by
  simp [modelP]

theorem modelP_decompress_compress (t : List Nat) :
    modelP.decompress (modelP.compress t) = some t := rfl

theorem modelP_atob_btoa (b : List Nat) : modelP.atob (modelP.btoa b) = some b := rfl

/-! ## Helper lemmas -/

theorem str_colon : str ":" = [':'] := rfl

/-- Reading back the key just written into the memory driver yields the
written envelope. -/
theorem MemoryDriver.read_write_self (store : MemStore T) (key : Str) (env : Envelope T) :
    MemoryDriver.read (MemoryDriver.write store key env) key = some env := by
  induction store with
  | nil => simp [MemoryDriver.read, MemoryDriver.write]
  | cons kv rest ih =>
    obtain ⟨k0, e0⟩ := kv
    by_cases h : k0 = key <;> simp [MemoryDriver.read, MemoryDriver.write, h, ih]

/-- The read path performs no mutation: `readOp` hands the state back
unchanged in every branch. -/
theorem readOp_preserves_state (P : Platform V T B K) (now : Nat) (key : Str)
    (schema? : Option (Schema V)) (st : GlobalState T K) :
    (readOp P now key schema? st).2 = st := by
  unfold readOp
  dsimp only
  (repeat' split) <;> rfl

/-- The envelope written with a truthy TTL carries `expiresAt = now + ttl`. -/
theorem processWrite_expiresAt (P : Platform V T B K) (cfg? : Option StorageConfig)
    (key? : Option K) (now : Nat) (v : V) (ver? : Option Nat) (t : Nat) (h0 : t ≠ 0) :
    (processWrite P cfg? key? now v ver? (some t)).expiresAt = some (now + t) := by
  simp [processWrite, h0]

/-- An envelope whose (nonzero) `expiresAt` lies strictly in the past
short-circuits `processRead` to `null`. -/
theorem processRead_expired (P : Platform V T B K) (cfg? : Option StorageConfig)
    (key? : Option K) (now : Nat) (env : Envelope T) (e : Nat)
    (he : env.expiresAt = some e) (h0 : e ≠ 0) (hlt : e < now) :
    processRead P cfg? key? now env = .ok none := by
  unfold processRead
  simp [he, h0, hlt]

/-- `read` on a state whose driver holds `env` under the namespaced key
returns `processRead`'s verdict: the value on success, or `null` plus the
error funnelled to the error handler. -/
theorem readOp_found (P : Platform V T B K) (now : Nat) (key : Str)
    (st : GlobalState T K) (d : DriverInst T) (env : Envelope T)
    (r : Except PErr (Option V))
    (hd : st.driver = some d)
    (hre : MemoryDriver.read d.store (getEnvelopeKey st.globalConfig key) = some env)
    (hpr : processRead P st.globalConfig st.encryptionKey now env = r) :
    (readOp P now key none st).1 = readOutcome r := by
  subst hpr
  unfold readOp readOutcome
  rw [hd]
  dsimp only
  rw [hre]
  dsimp only
  cases processRead P st.globalConfig st.encryptionKey now env <;> rfl

/-- Reversing `processWrite`'s transform chain: on an envelope produced by
`processWrite` with no caller version override, and not yet expired,
`processRead` recovers the written value, for every combination of
compression off/on and encryption key absent/present, given the round-trip
contracts of the platform primitives. -/
theorem processRead_processWrite (P : Platform V T B K) (cfg : StorageConfig)
    (key? : Option K) (now1 now2 : Nat) (v : V) (ttl? : Option Nat)
    (hparse : P.parse (P.stringify v) = some v)
    (hdec : ∀ k s, P.decrypt k (P.encrypt k s) = some s)
    (hcomp : ∀ s, P.decompress (P.compress s) = some s)
    (hatob : ∀ b, P.atob (P.btoa b) = some b)
    (hexp : (match (processWrite P (some cfg) key? now1 v none ttl?).expiresAt with
             | some e => e ≠ 0 && decide (now2 > e)
             | none => false) = false) :
    processRead P (some cfg) key? now2 (processWrite P (some cfg) key? now1 v none ttl?)
      = .ok (some v) := by
  cases key? with
  | none =>
    cases hc : cfg.compression <;>
      simp [processRead, processWrite, compressionOf, hc, hparse, hdec, hcomp, hatob] at hexp ⊢ <;>
      simp [hexp]
  | some k =>
    cases hc : cfg.compression <;>
      simp [processRead, processWrite, compressionOf, hc, hparse, hdec, hcomp, hatob] at hexp ⊢ <;>
      simp [hexp]

/-! ## Claim theorems -/

/-- C1: Round-trip — for every value `v`, every combination of compression
off/on (`cfg.compression`) and encryption off/on (`key?` the resolved key,
or absent), and no caller-supplied version override, `write(k, v)` followed
by `read(k)` on the same configuration returns a value equal to `v`.  The
hypotheses are the round-trip contracts of the platform primitives
(`JSON.parse ∘ JSON.stringify` on a serializable value, `decrypt ∘
encrypt`, `gunzip ∘ gzip`, `atob ∘ btoa`). -/
theorem write_read_roundtrip (P : Platform V T B K) (cfg : StorageConfig)
    (key? : Option K) (tag : DriverTag) (store : MemStore T) (bOn : Bool)
    (pend : List K) (cdn : Str) (now1 now2 : Nat) (k : Str) (v : V)
    (hparse : P.parse (P.stringify v) = some v)
    (hdec : ∀ kk s, P.decrypt kk (P.encrypt kk s) = some s)
    (hcomp : ∀ s, P.decompress (P.compress s) = some s)
    (hatob : ∀ b, P.atob (P.btoa b) = some b) :
    ∃ st', writeOp P now1 k v none none
        ⟨some cfg, some ⟨tag, store⟩, bOn, key?, pend, cdn⟩ = .ok st' ∧
      (readOp P now2 k none st').1 = .ok (some v, none) := by
  refine ⟨_, rfl, ?_⟩
  have hre := MemoryDriver.read_write_self store (getEnvelopeKey (some cfg) k)
    (processWrite P (some cfg) key? now1 v none none)
  have hpr := processRead_processWrite P cfg key? now1 now2 v none hparse hdec hcomp hatob
    (by simp [processWrite])
  simp [readOp, hre, hpr]

/-- Witness for C1: a concrete round trip with both compression and a
resolved encryption key, on the executable model platform. -/
theorem write_read_roundtrip_witness :
    ∃ st', writeOp modelP 100 (str "counter") 5 none none
        ⟨some ⟨some (str "app"), some .memory, some false,
               some ⟨str "pw", some (str "salt")⟩, true⟩,
         some ⟨.memory, []⟩, false, some 7, [], str "memory"⟩ = .ok st' ∧
      (readOp modelP 250 (str "counter") none st').1 = .ok (some 5, none) :=
  write_read_roundtrip modelP
    ⟨some (str "app"), some .memory, some false, some ⟨str "pw", some (str "salt")⟩, true⟩
    (some 7) .memory [] false [] (str "memory") 100 250 (str "counter") 5
    rfl modelP_decrypt_encrypt modelP_decompress_compress modelP_atob_btoa

/-- C6: every data operation — read, write, remove, keys, clearAll —
invoked while the module-level `driver` is still null throws the
"Storage not initialized" error: it neither touches a driver nor returns
a value or absence indicator. -/
theorem ops_before_setup_fail_fast (P : Platform V T B K) (now : Nat) (k : Str)
    (v : V) (sch? : Option (Schema V)) (v? t? : Option Nat) (pref? : Option Str)
    (st : GlobalState T K) (h : st.driver = none) :
    (readOp P now k sch? st).1 = .error notInitializedMsg ∧
    writeOp P now k v v? t? st = .error notInitializedMsg ∧
    removeOp k st = .error notInitializedMsg ∧
    keysOp pref? st = .error notInitializedMsg ∧
    clearAllOp st = .error notInitializedMsg := by
  refine ⟨?_, ?_, ?_, ?_, ?_⟩ <;>
    simp [readOp, writeOp, removeOp, keysOp, clearAllOp, h]

/-- Witness for C6: all five operations fail on the module-load state. -/
theorem ops_before_setup_fail_fast_witness :
    (readOp modelP 0 (str "k") none (initialState (List Nat) Nat)).1
        = .error notInitializedMsg ∧
    writeOp modelP 0 (str "k") 5 none none (initialState (List Nat) Nat)
        = .error notInitializedMsg ∧
    removeOp (str "k") (initialState (List Nat) Nat) = .error notInitializedMsg ∧
    keysOp none (initialState (List Nat) Nat) = .error notInitializedMsg ∧
    clearAllOp (initialState (List Nat) Nat) = .error notInitializedMsg :=
  ops_before_setup_fail_fast modelP 0 (str "k") 5 none none none none
    (initialState (List Nat) Nat) rfl

/-- C9: the web-storage driver's read is total — when the stored string
fails to parse, `read` yields the not-found sentinel `null` instead of
throwing, and no read ever modifies the backing storage (the malformed
record is left in place). -/
theorem ws_read_malformed_is_absent (parseEnv : Str → Except Str (Envelope T))
    (storage : WSStore) (key s e : Str)
    (hlook : wsGetItem storage key = some s)
    (hbad : parseEnv s = .error e) :
    wsRead parseEnv storage key = (none, storage) ∧
    (∀ storage2 key2, (wsRead parseEnv storage2 key2).2 = storage2) := by
  constructor
  · unfold wsRead
    rw [hlook]
    by_cases hs : s = [] <;> simp [hs, hbad]
  · intro storage2 key2
    unfold wsRead
    (repeat' split) <;> rfl

/-- Witness for C9: a record holding malformed JSON reads as `null` and
stays in storage. -/
theorem ws_read_malformed_is_absent_witness :
    wsRead (T := List Nat) (fun _ => .error (str "SyntaxError"))
        [(str "app:k", str "not-json")] (str "app:k")
      = (none, [(str "app:k", str "not-json")]) ∧
    (∀ storage2 key2,
      (wsRead (T := List Nat) (fun _ => .error (str "SyntaxError"))
          storage2 key2).2 = storage2) :=
  ws_read_malformed_is_absent (fun _ => .error (str "SyntaxError"))
    [(str "app:k", str "not-json")] (str "app:k") (str "not-json")
    (str "SyntaxError") (by decide) rfl

/-- C10: `clearAll()` is not namespace-scoped — whatever namespace is
configured and whatever keys (from any namespace) the shared driver store
holds, `clearAll` empties the entire driver store, after which the
driver's enumeration is empty for every prefix. -/
theorem clearAll_clears_whole_store (cfg? : Option StorageConfig) (tag : DriverTag)
    (store : MemStore T) (bOn : Bool) (key? : Option K) (pend : List K) (cdn : Str) :
    clearAllOp ⟨cfg?, some ⟨tag, store⟩, bOn, key?, pend, cdn⟩
      = .ok ⟨cfg?, some ⟨tag, []⟩, bOn, key?, pend, cdn⟩ ∧
    (∀ pref?, MemoryDriver.keysOf ([] : MemStore T) pref? = []) := by
  constructor
  · rfl
  · intro pref?
    cases pref? <;> simp [MemoryDriver.keysOf]

/-- C4: TTL expiry is lazy and boundary-exact.  A key written with TTL
`ttl` at time `t0` reads as not-found at `t0 + ttl + 1`, still reads as
the value at `t0 + ttl - 1`, and the read that observes the expired
envelope leaves the driver-level state untouched. -/
theorem ttl_expiry_lazy_boundary (P : Platform V T B K) (cfg : StorageConfig)
    (key? : Option K) (tag : DriverTag) (store : MemStore T) (bOn : Bool)
    (pend : List K) (cdn : Str) (t0 ttl : Nat) (k : Str) (v : V)
    (httl : 1 ≤ ttl)
    (hparse : P.parse (P.stringify v) = some v)
    (hdec : ∀ kk s, P.decrypt kk (P.encrypt kk s) = some s)
    (hcomp : ∀ s, P.decompress (P.compress s) = some s)
    (hatob : ∀ b, P.atob (P.btoa b) = some b) :
    ∃ st', writeOp P t0 k v none (some ttl)
        ⟨some cfg, some ⟨tag, store⟩, bOn, key?, pend, cdn⟩ = .ok st' ∧
      (readOp P (t0 + ttl + 1) k none st').1 = .ok (none, none) ∧
      (readOp P (t0 + ttl - 1) k none st').1 = .ok (some v, none) ∧
      (readOp P (t0 + ttl + 1) k none st').2 = st' := by
  have h0 : ttl ≠ 0 := by omega
  have hre := MemoryDriver.read_write_self store (getEnvelopeKey (some cfg) k)
    (processWrite P (some cfg) key? t0 v none (some ttl))
  refine ⟨_, rfl, ?_, ?_, readOp_preserves_state _ _ _ _ _⟩
  · have hexp1 : processRead P (some cfg) key? (t0 + ttl + 1)
        (processWrite P (some cfg) key? t0 v none (some ttl)) = .ok none :=
      processRead_expired P (some cfg) key? (t0 + ttl + 1) _ (t0 + ttl)
        (processWrite_expiresAt P (some cfg) key? t0 v none ttl h0)
        (by omega) (by omega)
    rw [readOp_found P (t0 + ttl + 1) k _ _ _ _ rfl hre hexp1]
    rfl
  · have hexp : (match (processWrite P (some cfg) key? t0 v none (some ttl)).expiresAt with
                 | some e => e ≠ 0 && decide (t0 + ttl - 1 > e)
                 | none => false) = false := by
      rw [processWrite_expiresAt P (some cfg) key? t0 v none ttl h0]
      have hgt : ¬ (t0 + ttl - 1 > t0 + ttl) := by omega
      simp [hgt]
    have hpr := processRead_processWrite P cfg key? t0 (t0 + ttl - 1) v (some ttl)
      hparse hdec hcomp hatob hexp
    rw [readOp_found P (t0 + ttl - 1) k _ _ _ _ rfl hre hpr]
    rfl

/-- Witness for C4: TTL of 300ms written at 1000 is gone at 1301, still
there at 1299, and the expired-read leaves the state unchanged. -/
theorem ttl_expiry_lazy_boundary_witness :
    1 ≤ 300 ∧
    ∃ st', writeOp modelP 1000 (str "session") 5 none (some 300)
        ⟨some ⟨none, some .memory, some false, none, false⟩,
         some ⟨.memory, []⟩, false, none, [], str "memory"⟩ = .ok st' ∧
      (readOp modelP 1301 (str "session") none st').1 = .ok (none, none) ∧
      (readOp modelP 1299 (str "session") none st').1 = .ok (some 5, none) ∧
      (readOp modelP 1301 (str "session") none st').2 = st' :=
  ⟨by decide,
   ttl_expiry_lazy_boundary modelP ⟨none, some .memory, some false, none, false⟩
     none .memory [] false [] (str "memory") 1000 300 (str "session") 5
     (by decide) rfl modelP_decrypt_encrypt modelP_decompress_compress modelP_atob_btoa⟩

/-- C2 counterexample: with encryption configured but the derived key still
pending, a write that carries a caller version override of 3 persists the
plain serialized text — unencrypted — yet its envelope version is 3, i.e.
not below the encrypted tier, refuting the claim's universally quantified
version bound. -/
theorem write_before_key_version_counterexample :
    (processWrite modelP
        (some ⟨none, some .memory, some false, some ⟨str "pw", none⟩, false⟩)
        none 100 5 (some 3) none).data = modelP.stringify 5 ∧
    ¬ (processWrite modelP
        (some ⟨none, some .memory, some false, some ⟨str "pw", none⟩, false⟩)
        none 100 5 (some 3) none).v < 3 := by
  constructor
  · rfl
  · decide

/-- C2 amended: every write issued while encryption is configured but the
key has not yet resolved completes without waiting (it returns `ok`) and
persists the payload unencrypted — the serialized text, compressed when
compression is enabled; absent a caller version override the envelope
version stays below the encrypted tier 3 (2 when compressed, else 1). -/
theorem write_before_key_is_unencrypted (P : Platform V T B K) (cfg : StorageConfig)
    (tag : DriverTag) (store : MemStore T) (bOn : Bool) (pend : List K) (cdn : Str)
    (now : Nat) (k : Str) (v : V) (ttl? : Option Nat) (ec : EncryptionConfig)
    (henc : cfg.encryption = some ec) :
    writeOp P now k v none ttl? ⟨some cfg, some ⟨tag, store⟩, bOn, none, pend, cdn⟩
      = .ok ⟨some cfg, some ⟨tag, MemoryDriver.write store (getEnvelopeKey (some cfg) k)
          (processWrite P (some cfg) none now v none ttl?)⟩, bOn, none, pend, cdn⟩ ∧
    (processWrite P (some cfg) none now v none ttl?).data
      = (if cfg.compression then P.btoa (P.compress (P.stringify v)) else P.stringify v) ∧
    (processWrite P (some cfg) none now v none ttl?).v < 3 ∧
    (processWrite P (some cfg) none now v none ttl?).v
      = (if cfg.compression then 2 else 1) := by
  refine ⟨rfl, ?_, ?_, ?_⟩ <;>
    cases hc : cfg.compression <;> simp [processWrite, compressionOf, hc]

/-- Witness for C2's amended theorem: a concrete pending-key write with
compression off persists the plain text at version 1. -/
theorem write_before_key_is_unencrypted_witness :
    writeOp modelP 100 (str "k") 5 none none
        ⟨some ⟨none, some .memory, some false, some ⟨str "pw", none⟩, false⟩,
         some ⟨.memory, []⟩, false, none, [], str "memory"⟩
      = .ok ⟨some ⟨none, some .memory, some false, some ⟨str "pw", none⟩, false⟩,
          some ⟨.memory, MemoryDriver.write []
            (getEnvelopeKey (some ⟨none, some .memory, some false, some ⟨str "pw", none⟩, false⟩)
              (str "k"))
            (processWrite modelP
              (some ⟨none, some .memory, some false, some ⟨str "pw", none⟩, false⟩)
              none 100 5 none none)⟩, false, none, [], str "memory"⟩ ∧
    (processWrite modelP
        (some ⟨none, some .memory, some false, some ⟨str "pw", none⟩, false⟩)
        none 100 5 none none).data
      = (if (⟨none, some .memory, some false, some ⟨str "pw", none⟩, false⟩ :
            StorageConfig).compression then
           modelP.btoa (modelP.compress (modelP.stringify 5))
         else modelP.stringify 5) ∧
    (processWrite modelP
        (some ⟨none, some .memory, some false, some ⟨str "pw", none⟩, false⟩)
        none 100 5 none none).v < 3 ∧
    (processWrite modelP
        (some ⟨none, some .memory, some false, some ⟨str "pw", none⟩, false⟩)
        none 100 5 none none).v
      = (if (⟨none, some .memory, some false, some ⟨str "pw", none⟩, false⟩ :
            StorageConfig).compression then 2 else 1) :=
  write_before_key_is_unencrypted modelP
    ⟨none, some .memory, some false, some ⟨str "pw", none⟩, false⟩
    .memory [] false [] (str "memory") 100 (str "k") 5 none
    ⟨str "pw", none⟩ rfl

/-- C3 (code bug): a caller-supplied schema rejecting the deserialized
value, and a decrypt failure on corrupt data, are both caught by `read`'s
catch-all, handed to the error handler, and surfaced as a resolved `null`
— the same value that means not-found — instead of propagating as a read
error (which `read`'s own `@throws` documentation promises for validation
failures). -/
theorem read_failure_degrades_to_null :
    (readOp modelP 100 (str "k") (some (fun _ => none)) stateWith42).1
      = .ok (none, some .schemaFailed) ∧
    (readOp modelP 100 (str "k") none stateCorrupt).1
      = .ok (none, some .decryptFailed) := by
  exact ⟨rfl, rfl⟩

/-- Dropping `namespace.length + 1` code units from `(n ++ ":") ++ t`
recovers `t` (the `slice(namespace.length + 1)` strip in `keys()`). -/
theorem ns_drop (n t : Str) : ((n ++ str ":") ++ t).drop (n.length + 1) = t := by
  have h : (n ++ str ":").length = n.length + 1 := by simp [str]
  rw [← h, List.drop_left]

/-- `n ++ ":"` is a prefix of `(n ++ ":") ++ t` under `startsWith`. -/
theorem ns_isPrefix (n t : Str) :
    (n ++ str ":").isPrefixOf ((n ++ str ":") ++ t) = true := by
  rw [List.isPrefixOf_iff_prefix]
  exact List.prefix_append _ _

/-- C7: with a (truthy) namespace `n` configured, write and remove touch
the driver store only at `n ++ ":" ++ key`; read's result depends only on
the driver record at `n ++ ":" ++ key`; and `keys()` asks the driver only
for keys with the `n ++ ":"` prefix and returns each of them with that
prefix stripped — a stripped key `r` is listed exactly when the driver
holds `n ++ ":" ++ r`. -/
theorem namespacing_is_uniform_prefix (P : Platform V T B K) (cfg : StorageConfig)
    (key? : Option K) (tag : DriverTag) (store : MemStore T) (bOn : Bool)
    (pend : List K) (cdn : Str) (now : Nat) (k : Str) (v : V)
    (v? t? : Option Nat) (n : Str)
    (hns : cfg.nameSpace = some n) (hn : n ≠ []) :
    writeOp P now k v v? t? ⟨some cfg, some ⟨tag, store⟩, bOn, key?, pend, cdn⟩
      = .ok ⟨some cfg, some ⟨tag, MemoryDriver.write store (n ++ str ":" ++ k)
          (processWrite P (some cfg) key? now v v? t?)⟩, bOn, key?, pend, cdn⟩ ∧
    removeOp k ⟨some cfg, some ⟨tag, store⟩, bOn, key?, pend, cdn⟩
      = .ok ⟨some cfg, some ⟨tag, MemoryDriver.del store (n ++ str ":" ++ k)⟩,
          bOn, key?, pend, cdn⟩ ∧
    (∀ store2 : MemStore T,
      MemoryDriver.read store (n ++ str ":" ++ k)
          = MemoryDriver.read store2 (n ++ str ":" ++ k) →
      (readOp P now k none ⟨some cfg, some ⟨tag, store⟩, bOn, key?, pend, cdn⟩).1
        = (readOp P now k none ⟨some cfg, some ⟨tag, store2⟩, bOn, key?, pend, cdn⟩).1) ∧
    keysOp none ⟨some cfg, some ⟨tag, store⟩, bOn, key?, pend, cdn⟩
      = .ok (((store.map (·.1)).filter (fun k2 => (n ++ str ":").isPrefixOf k2)).map
          (fun k2 => k2.drop (n.length + 1))) ∧
    (∀ r : Str,
      r ∈ ((store.map (·.1)).filter (fun k2 => (n ++ str ":").isPrefixOf k2)).map
          (fun k2 => k2.drop (n.length + 1))
        ↔ (n ++ str ":" ++ r) ∈ store.map (·.1)) := by
  have hkey : getEnvelopeKey (some cfg) k = n ++ str ":" ++ k := by
    simp [getEnvelopeKey, hns, hn]
  refine ⟨?_, ?_, ?_, ?_, ?_⟩
  · simp [writeOp, hkey]
  · simp [removeOp, hkey]
  · intro store2 hagree
    simp only [readOp, hkey]
    rw [hagree]
    rcases MemoryDriver.read store2 (n ++ str ":" ++ k) with _ | env
    · rfl
    · dsimp only
      rcases processRead P (some cfg) key? now env with e | dat <;> rfl
  · have hne : n ++ str ":" ≠ [] := by simp [str]
    simp [keysOp, MemoryDriver.keysOf, hns, hn, hne]
  · intro r
    simp only [List.mem_map, List.mem_filter]
    constructor
    · rintro ⟨k2, ⟨hk2, hpre⟩, rfl⟩
      rw [List.isPrefixOf_iff_prefix] at hpre
      obtain ⟨t, rfl⟩ := hpre
      rw [ns_drop]
      exact hk2
    · intro hmem
      exact ⟨n ++ str ":" ++ r, ⟨hmem, ns_isPrefix n r⟩, ns_drop n r⟩

/-- Witness for C7 on a concrete store holding a key of this namespace and
a key of a foreign namespace. -/
theorem namespacing_is_uniform_prefix_witness :
    writeOp modelP 10 (str "k") 5 none none
        ⟨some ⟨some (str "app"), some .memory, some false, none, false⟩,
         some ⟨.memory, [(str "app:old", ⟨1, [4], 1, 1, none⟩),
                         (str "other:x", ⟨1, [9], 1, 1, none⟩)]⟩,
         false, none, [], str "memory"⟩
      = .ok ⟨some ⟨some (str "app"), some .memory, some false, none, false⟩,
          some ⟨.memory, MemoryDriver.write
            [(str "app:old", ⟨1, [4], 1, 1, none⟩), (str "other:x", ⟨1, [9], 1, 1, none⟩)]
            (str "app" ++ str ":" ++ str "k")
            (processWrite modelP
              (some ⟨some (str "app"), some .memory, some false, none, false⟩)
              none 10 5 none none)⟩, false, none, [], str "memory"⟩ ∧
    removeOp (str "k")
        (⟨some ⟨some (str "app"), some .memory, some false, none, false⟩,
         some ⟨.memory, [(str "app:old", ⟨1, [4], 1, 1, none⟩),
                         (str "other:x", ⟨1, [9], 1, 1, none⟩)]⟩,
         false, none, [], str "memory"⟩ : GlobalState (List Nat) Nat)
      = .ok ⟨some ⟨some (str "app"), some .memory, some false, none, false⟩,
          some ⟨.memory, MemoryDriver.del
            [(str "app:old", ⟨1, [4], 1, 1, none⟩), (str "other:x", ⟨1, [9], 1, 1, none⟩)]
            (str "app" ++ str ":" ++ str "k")⟩, false, none, [], str "memory"⟩ ∧
    (∀ store2 : MemStore (List Nat),
      MemoryDriver.read
          [(str "app:old", ⟨1, [4], 1, 1, none⟩), (str "other:x", ⟨1, [9], 1, 1, none⟩)]
          (str "app" ++ str ":" ++ str "k")
        = MemoryDriver.read store2 (str "app" ++ str ":" ++ str "k") →
      (readOp modelP 10 (str "k") none
        ⟨some ⟨some (str "app"), some .memory, some false, none, false⟩,
         some ⟨.memory, [(str "app:old", ⟨1, [4], 1, 1, none⟩),
                         (str "other:x", ⟨1, [9], 1, 1, none⟩)]⟩,
         false, none, [], str "memory"⟩).1
        = (readOp modelP 10 (str "k") none
            ⟨some ⟨some (str "app"), some .memory, some false, none, false⟩,
             some ⟨.memory, store2⟩, false, none, [], str "memory"⟩).1) ∧
    keysOp none
        (⟨some ⟨some (str "app"), some .memory, some false, none, false⟩,
         some ⟨.memory, [(str "app:old", ⟨1, [4], 1, 1, none⟩),
                         (str "other:x", ⟨1, [9], 1, 1, none⟩)]⟩,
         false, none, [], str "memory"⟩ : GlobalState (List Nat) Nat)
      = .ok ((([(str "app:old", (⟨1, [4], 1, 1, none⟩ : Envelope (List Nat))),
                (str "other:x", ⟨1, [9], 1, 1, none⟩)].map (·.1)).filter
            (fun k2 => (str "app" ++ str ":").isPrefixOf k2)).map
          (fun k2 => k2.drop ((str "app").length + 1))) ∧
    (∀ r : Str,
      r ∈ ((([(str "app:old", (⟨1, [4], 1, 1, none⟩ : Envelope (List Nat))),
              (str "other:x", ⟨1, [9], 1, 1, none⟩)].map (·.1)).filter
            (fun k2 => (str "app" ++ str ":").isPrefixOf k2)).map
          (fun k2 => k2.drop ((str "app").length + 1)))
        ↔ (str "app" ++ str ":" ++ r)
            ∈ [(str "app:old", (⟨1, [4], 1, 1, none⟩ : Envelope (List Nat))),
               (str "other:x", ⟨1, [9], 1, 1, none⟩)].map (·.1)) :=
  namespacing_is_uniform_prefix modelP
    ⟨some (str "app"), some .memory, some false, none, false⟩ none .memory
    [(str "app:old", ⟨1, [4], 1, 1, none⟩), (str "other:x", ⟨1, [9], 1, 1, none⟩)]
    false [] (str "memory") 10 (str "k") 5 none none (str "app") rfl (by decide)

/-- C5 counterexample: after `setup(cfgOne)` with encryption, the key
derivation resolving, then `setup(cfgTwo)` without encryption, the key
derived from `cfgOne`'s passphrase is still the active `encryptionKey`,
and the next write encrypts its payload with that stale key. -/
theorem setup_key_carryover_counterexample :
    stateAfterResetup.globalConfig = some cfgTwo ∧
    stateAfterResetup.encryptionKey = some (modelP.deriveKey ecOne) ∧
    ∃ st', writeOp modelP 300 (str "k") 5 none none stateAfterResetup = .ok st' ∧
      (st'.driver.map fun d => (MemoryDriver.read d.store (str "k")).map (·.data))
        = some (some (modelP.encrypt (modelP.deriveKey ecOne) (modelP.stringify 5))) := by
  refine ⟨rfl, rfl, _, rfl, ?_⟩
  rfl

/-- C5 amended: calling `setup(c2)` replaces the configuration and the
active driver and kicks off a fresh key derivation when `c2` configures
encryption — but it does not clear or replace the previously derived
`encryptionKey`, which stays active for subsequent operations. -/
theorem setup_replaces_config_keeps_key (P : Platform V T B K) (env : JsEnv)
    (c2 : StorageConfig) (st : GlobalState T K) (d : DriverInst T)
    (hok : createDriver env (c2.driver.getD .auto) = .ok d) :
    (setup P env c2 st).2 = none ∧
    ((setup P env c2 st).1).globalConfig = some c2 ∧
    ((setup P env c2 st).1).driver = some d ∧
    ((setup P env c2 st).1).encryptionKey = st.encryptionKey ∧
    ((setup P env c2 st).1).pendingKeys
      = st.pendingKeys ++ (match c2.encryption with
          | some ec => [P.deriveKey ec]
          | none => []) := by
  unfold setup
  rw [hok]
  cases c2.encryption <;> cases hb : (c2.broadcast != some false) <;> simp [hb]

/-- Witness for C5's amended theorem at `cfgTwo` over the state left by the
re-setup scenario's first phase. -/
theorem setup_replaces_config_keeps_key_witness :
    (setup modelP ssrEnv cfgTwo
        (resolveKey ((setup modelP ssrEnv cfgOne (initialState (List Nat) Nat)).1)
          (modelP.deriveKey ecOne))).2 = none ∧
    ((setup modelP ssrEnv cfgTwo
        (resolveKey ((setup modelP ssrEnv cfgOne (initialState (List Nat) Nat)).1)
          (modelP.deriveKey ecOne))).1).globalConfig = some cfgTwo ∧
    ((setup modelP ssrEnv cfgTwo
        (resolveKey ((setup modelP ssrEnv cfgOne (initialState (List Nat) Nat)).1)
          (modelP.deriveKey ecOne))).1).driver = some ⟨.memory, []⟩ ∧
    ((setup modelP ssrEnv cfgTwo
        (resolveKey ((setup modelP ssrEnv cfgOne (initialState (List Nat) Nat)).1)
          (modelP.deriveKey ecOne))).1).encryptionKey
      = (resolveKey ((setup modelP ssrEnv cfgOne (initialState (List Nat) Nat)).1)
          (modelP.deriveKey ecOne)).encryptionKey ∧
    ((setup modelP ssrEnv cfgTwo
        (resolveKey ((setup modelP ssrEnv cfgOne (initialState (List Nat) Nat)).1)
          (modelP.deriveKey ecOne))).1).pendingKeys
      = (resolveKey ((setup modelP ssrEnv cfgOne (initialState (List Nat) Nat)).1)
          (modelP.deriveKey ecOne)).pendingKeys
        ++ (match cfgTwo.encryption with
            | some ec => [modelP.deriveKey ec]
            | none => []) :=
  setup_replaces_config_keeps_key modelP ssrEnv cfgTwo
    (resolveKey ((setup modelP ssrEnv cfgOne (initialState (List Nat) Nat)).1)
      (modelP.deriveKey ecOne)) ⟨.memory, []⟩ rfl

/-- C8: `auto` driver selection never throws in any environment; in a
non-browser (SSR) context it short-circuits directly to the memory driver —
after `setup`, both `driverId()` and the cached driver name report
`"memory"` — while in a browser it yields the indexed-store driver when its
construction succeeds, else the persistent web-storage driver, else
memory. -/
theorem auto_driver_selection (P : Platform V T B K) (env : JsEnv)
    (cfg : StorageConfig) (st : GlobalState T K)
    (hauto : cfg.driver.getD .auto = .auto) :
    (∃ d : DriverInst T, createDriver env .auto = .ok d) ∧
    (env.isSSR = true → createDriver (T := T) env .auto = .ok ⟨.memory, []⟩) ∧
    (env.isSSR = false →
      createDriver (T := T) env .auto
        = .ok (if env.idbCtorOk then ⟨.idb, []⟩
               else if env.localAvailable then ⟨.local, []⟩
               else ⟨.memory, []⟩)) ∧
    (env.isSSR = true →
      (setup P env cfg st).2 = none ∧
      ((setup P env cfg st).1).currentDriverName = str "memory" ∧
      driverIdOp ((setup P env cfg st).1) = str "memory") := by
  obtain ⟨ssr, idbOk, loc, sess⟩ := env
  refine ⟨?_, ?_, ?_, ?_⟩
  · cases ssr <;> cases idbOk <;> cases loc <;> exact ⟨_, rfl⟩
  · intro h
    cases ssr
    · simp at h
    · rfl
  · intro h
    cases ssr
    · cases idbOk <;> cases loc <;> rfl
    · simp at h
  · intro h
    cases ssr
    · simp at h
    · unfold setup
      rw [hauto]
      dsimp only [createDriver]
      cases c : cfg.encryption <;> cases hb : (cfg.broadcast != some false) <;>
        simp [hb, driverIdOp, driverIdStr]

/-- Witness for C8 in a concrete SSR environment with `driver: 'auto'`
left unset in the configuration. -/
theorem auto_driver_selection_witness :
    (∃ d : DriverInst (List Nat), createDriver ssrEnv .auto = .ok d) ∧
    (ssrEnv.isSSR = true → createDriver (T := List Nat) ssrEnv .auto = .ok ⟨.memory, []⟩) ∧
    (ssrEnv.isSSR = false →
      createDriver (T := List Nat) ssrEnv .auto
        = .ok (if ssrEnv.idbCtorOk then ⟨.idb, []⟩
               else if ssrEnv.localAvailable then ⟨.local, []⟩
               else ⟨.memory, []⟩)) ∧
    (ssrEnv.isSSR = true →
      (setup modelP ssrEnv ⟨none, none, none, none, false⟩
          (initialState (List Nat) Nat)).2 = none ∧
      ((setup modelP ssrEnv ⟨none, none, none, none, false⟩
          (initialState (List Nat) Nat)).1).currentDriverName = str "memory" ∧
      driverIdOp ((setup modelP ssrEnv ⟨none, none, none, none, false⟩
          (initialState (List Nat) Nat)).1) = str "memory") :=
  auto_driver_selection modelP ssrEnv ⟨none, none, none, none, false⟩
    (initialState (List Nat) Nat) rfl

end UnifiedStorage
